import Mathlib

/-!
Verification of the pagination scraper (`src/vercel_scraper.py`) against its
specification.

Shallow embedding conventions:
* JSON values are modelled by the inductive `JsonVal`; Python dicts are
  association lists.  `d.get(k, default)` is `dictGet`; calling `.get` on a
  non-dict value raises `AttributeError` in Python, modelled by `Option`
  (`none` = the call raises).
* Page bodies handed to the driver are modelled by the record `PageBody`
  (fields `results`, `total`, `totalPages`, `error`), the dict shape the code
  reads; an absent key is `none`.
* Network nondeterminism is an oracle `Nat → HttpOutcome` giving the outcome
  of each HTTP attempt of `fetch_page`; operator keyboard input is an oracle
  `Nat → String` giving the text of each `input()` call at the renewal prompt.
* Log lines are modelled by their status tag (`"SUCCESS"`, `"ERROR"`,
  `"RETRY"`, `"NEW_SESSION"`, `"STOPPED"`, `"COMPLETED"`); the free-text
  detail and timestamps are not modelled.  `time.sleep` calls are recorded
  (the list `sleeps` in the fetcher, the flag `sleptDelay` in the driver).
* URL percent-encoding of query parameters is not modelled; the URL string is
  assembled verbatim.
-/

namespace VercelScraper

/-- A JSON value, as produced by `response.json()` / found in result records. -/
inductive JsonVal where
  | str (s : String)
  | num (n : Int)
  | boolean (b : Bool)
  | null
  | arr (xs : List JsonVal)
  | obj (fields : List (String × JsonVal))

/-- Python `d.get(k, default)` on a dict modelled as an association list. -/
def dictGet (fields : List (String × JsonVal)) (k : String) (default : JsonVal) : JsonVal :=
  match fields with
  | [] => default
  | (k2, v) :: rest => if k2 = k then v else dictGet rest k default

/-- Python `v.get(k, default)`: succeeds only when `v` is a dict, otherwise the
attribute access raises (`none`). -/
def jsonGet (v : JsonVal) (k : String) (default : JsonVal) : Option JsonVal :=
  match v with
  | .obj fields => some (dictGet fields k default)
  | _ => none

/-- The seven-field projection built by `extract_needed_fields` (values are
kept as raw JSON values: the code copies whatever `get` returns). -/
structure Extracted where
  business_name : JsonVal
  registration_id : JsonVal
  status : JsonVal
  filing_date : JsonVal
  agent_name : JsonVal
  agent_address : JsonVal
  agent_email : JsonVal

/-- `extract_needed_fields(result)` (src/vercel_scraper.py:62-82).
`none` models the Python call raising (result or its `agent` value not a
dict). -/
def extract_needed_fields (result : JsonVal) : Option Extracted := do
  let agent ← jsonGet result "agent" (.obj [])
  let business_name ← jsonGet result "businessName" (.str "")
  let registration_id ← jsonGet result "registrationId" (.str "")
  let status ← jsonGet result "status" (.str "")
  let filing_date ← jsonGet result "filingDate" (.str "")
  let agent_name ← jsonGet agent "name" (.str "")
  let agent_address ← jsonGet agent "address" (.str "")
  let agent_email ← jsonGet agent "email" (.str "")
  pure { business_name, registration_id, status, filing_date,
         agent_name, agent_address, agent_email }

/-- The list comprehension `[extract_needed_fields(r) for r in raw_results]`;
`none` models the comprehension raising on some element. -/
def extractList (rs : List JsonVal) : Option (List Extracted) :=
  rs.mapM extract_needed_fields

/-- The dict shape of a parsed page response body, as read by the code:
`results`, `total`, `totalPages`, `error`; `none` = key absent. -/
structure PageBody where
  results : List JsonVal
  total : Option Nat
  totalPages : Option Nat
  error : Option String

/-- The error-type strings returned by `fetch_page`:
`'timeout'`, `'403'`, `'other'`. -/
inductive ErrType where
  | timeout
  | e403
  | other
deriving DecidableEq

/-- Outcome of one `requests.get` attempt: an HTTP response (status, reason
phrase, parsed JSON body), a timeout, or another `RequestException` carrying
its message text and, when a response is attached, its status code. -/
inductive HttpOutcome where
  | response (status : Nat) (reason : String) (body : PageBody)
  | timeoutExc
  | reqError (msg : String) (respStatus : Option Nat)

/-- Observable result of one `fetch_page` call: the returned pair, the status
tags of the log events emitted (one per attempt), the `time.sleep` durations,
and the number of attempts performed. -/
structure FetchResult where
  data : Option PageBody
  error : Option ErrType
  log : List String
  sleeps : List Nat
  attempts : Nat

/-- `needle` occurs as a contiguous sublist of `hay` (Python `in` on str). -/
def listContainsSub (needle : List Char) : List Char → Bool
  | [] => needle.isEmpty
  | c :: t => needle.isPrefixOf (c :: t) || listContainsSub needle t

/-- Python `needle in hay` for strings. -/
def strContainsSub (hay needle : String) : Bool :=
  listContainsSub needle.data hay.data

/-- Python `s.lower()` (ASCII case mapping suffices for the strings the code
compares against). -/
def pyLower (s : String) : String :=
  String.mk (s.data.map Char.toLower)

/-- Whitespace characters stripped by Python `str.strip()`. -/
def isSpaceChar (c : Char) : Bool :=
  c == ' ' || c == '\t' || c == '\n' || c == '\r' || c == '\x0b' || c == '\x0c'

/-- Python `s.strip()`. -/
def pyStrip (s : String) : String :=
  String.mk (((s.data.dropWhile isSpaceChar).reverse.dropWhile isSpaceChar).reverse)

/-- The request URL with its query parameters, as it appears in
`requests` exception messages (percent-encoding not modelled). -/
def requestUrl (query : String) (page : Nat) : String :=
  "https://scraping-trial-test.vercel.app/api/search?q=" ++ query
    ++ "&page=" ++ toString page

/-- The message of the `HTTPError` raised by `response.raise_for_status()`
for a status in [400, 600). -/
def httpErrorMsg (status : Nat) (reason url : String) : String :=
  toString status
    ++ (if status < 500 then " Client Error: " else " Server Error: ")
    ++ reason ++ " for url: " ++ url

/-- Body of the `while attempt <= max_retries` loop of `fetch_page`
(src/vercel_scraper.py:133-185).  `fuel` is `max_retries + 1 - attempt`;
`fuel = 0` is the loop exiting, reaching the final `return None, 'other'`
(line 185). -/
def fetch_pageGo (query : String) (page : Nat) (oracle : Nat → HttpOutcome)
    (max_retries : Nat) : Nat → Nat → FetchResult
  | 0, _ =>
    { data := none, error := some ErrType.other, log := [], sleeps := [], attempts := 0 }
  | fuel + 1, attempt =>
    match oracle attempt with
    | .response status reason body =>
      if status == 403 then
        { data := none, error := some ErrType.e403, log := ["ERROR"], sleeps := [],
          attempts := 1 }
      else if 400 ≤ status && status < 600 then
        -- `response.raise_for_status()` raises `HTTPError`, caught by the
        -- generic `RequestException` handler (lines 168-183)
        let m := pyLower (httpErrorMsg status reason (requestUrl query page))
        if strContainsSub m "recaptcha" || strContainsSub m "session"
            || status == 403 then
          { data := none, error := some ErrType.e403, log := ["ERROR"], sleeps := [],
            attempts := 1 }
        else if max_retries ≤ attempt then
          { data := none, error := some ErrType.other, log := ["ERROR"], sleeps := [],
            attempts := 1 }
        else
          let r := fetch_pageGo query page oracle max_retries fuel (attempt + 1)
          { r with log := "RETRY" :: r.log, sleeps := 2 :: r.sleeps,
                   attempts := r.attempts + 1 }
      else
        match body.error with
        | some emsg =>
          let error_msg := pyLower emsg
          if strContainsSub error_msg "recaptcha"
              || strContainsSub error_msg "session" then
            { data := none, error := some ErrType.e403, log := ["ERROR"], sleeps := [],
              attempts := 1 }
          else
            { data := some body, error := none, log := ["SUCCESS"], sleeps := [],
              attempts := 1 }
        | none =>
          { data := some body, error := none, log := ["SUCCESS"], sleeps := [],
            attempts := 1 }
    | .timeoutExc =>
      if max_retries ≤ attempt then
        { data := none, error := some ErrType.timeout, log := ["ERROR"], sleeps := [],
          attempts := 1 }
      else
        let r := fetch_pageGo query page oracle max_retries fuel (attempt + 1)
        { r with log := "RETRY" :: r.log, sleeps := 2 :: r.sleeps,
                 attempts := r.attempts + 1 }
    | .reqError msg respStatus =>
      let error_str := pyLower msg
      if strContainsSub error_str "recaptcha" || strContainsSub error_str "session"
          || respStatus == some 403 then
        { data := none, error := some ErrType.e403, log := ["ERROR"], sleeps := [],
          attempts := 1 }
      else if max_retries ≤ attempt then
        { data := none, error := some ErrType.other, log := ["ERROR"], sleeps := [],
          attempts := 1 }
      else
        let r := fetch_pageGo query page oracle max_retries fuel (attempt + 1)
        { r with log := "RETRY" :: r.log, sleeps := 2 :: r.sleeps,
                 attempts := r.attempts + 1 }

/-- `fetch_page(query, page, session_id, log_file, max_retries)`
(src/vercel_scraper.py:103-185); the credential and log file do not influence
the modelled observables.  The driver always calls it with the default
`max_retries = 2`. -/
def fetch_page (query : String) (page : Nat) (oracle : Nat → HttpOutcome)
    (max_retries : Nat) : FetchResult :=
  fetch_pageGo query page oracle max_retries (max_retries + 1) 0

/-- The driver's mutable locals across iterations of the `while True` loop of
`fetch_all_pages` (src/vercel_scraper.py:213-215). -/
structure DState where
  current_page : Nat
  total_pages : Option Nat
  total_results_collected : Nat
  session_id : String
deriving DecidableEq

/-- How one loop iteration ends: continue looping, `break` at a STOPPED log,
or `break` at the COMPLETED log. -/
inductive Control where
  | running
  | stoppedP
  | doneP
deriving DecidableEq

/-- Observables of one iteration of the driver loop: resulting locals, how
the iteration ended, the batch appended to the output file, the driver-level
log status tags emitted, whether the inter-page `time.sleep(delay)` ran, and
whether the operator was prompted for input. -/
structure IterResult where
  state : DState
  control : Control
  persisted : List Extracted
  logs : List String
  sleptDelay : Bool
  prompted : Bool

/-- One iteration of the `while True` loop of `fetch_all_pages`
(src/vercel_scraper.py:217-274), given the pair returned by `fetch_page` and
the text the operator would type at the renewal prompt (consumed only when
the prompt runs).  `none` models the iteration raising inside the extraction
comprehension. -/
def driverIter (s : DState) (fetchRes : Option PageBody × Option ErrType)
    (input : String) : Option IterResult :=
  match fetchRes with
  | (none, error_type) =>
    if error_type == some ErrType.timeout || error_type == some ErrType.e403 then
      let new_session_id := pyStrip input
      if pyLower new_session_id == "quit" then
        some { state := s, control := .stoppedP, persisted := [],
               logs := ["STOPPED"], sleptDelay := false, prompted := true }
      else
        some { state := { s with session_id := new_session_id },
               control := .running, persisted := [], logs := ["NEW_SESSION"],
               sleptDelay := false, prompted := true }
    else
      some { state := s, control := .stoppedP, persisted := [],
             logs := ["STOPPED"], sleptDelay := false, prompted := false }
  | (some page_data, _) =>
    let tp := match s.total_pages with
      | none => page_data.totalPages.getD 1
      | some n => n
    match extractList page_data.results with
    | none => none
    | some filtered_results =>
      let s1 : DState :=
        { s with total_pages := some tp,
                 total_results_collected :=
                   s.total_results_collected + filtered_results.length }
      if tp ≤ s1.current_page then
        some { state := s1, control := .doneP, persisted := filtered_results,
               logs := ["COMPLETED"], sleptDelay := false, prompted := false }
      else
        let s2 : DState := { s1 with current_page := s1.current_page + 1 }
        some { state := s2, control := .running, persisted := filtered_results,
               logs := [], sleptDelay := decide (s2.current_page ≤ tp),
               prompted := false }

/-- How a whole run ends: at the COMPLETED break (`DONE`) or at a STOPPED
break. -/
inductive Outcome where
  | done
  | stopped
deriving DecidableEq

/-- Observables of a whole `fetch_all_pages` run: final locals, terminal
outcome, number of `fetch_page` calls made, every record batch persisted (in
order), and the driver-level log tags emitted. -/
structure RunResult where
  state : DState
  outcome : Outcome
  fetchCalls : Nat
  persisted : List Extracted
  logs : List String

/-- Result of running the driver loop with bounded fuel. -/
inductive RunRes where
  | out (r : RunResult)
  | crash
  | fuelOut

/-- The `while True` loop of `fetch_all_pages`, iterated with fuel.
`fetchO k` is the pair returned by the `k`-th `fetch_page` call; `inputO j`
is the operator's `j`-th answer at the renewal prompt. -/
def fetch_all_pagesGo (fetchO : Nat → Option PageBody × Option ErrType)
    (inputO : Nat → String) :
    Nat → DState → Nat → Nat → List Extracted → List String → RunRes
  | 0, _, _, _, _, _ => .fuelOut
  | fuel + 1, s, k, j, acc, logs =>
    match driverIter s (fetchO k) (inputO j) with
    | none => .crash
    | some r =>
      let j2 := if r.prompted then j + 1 else j
      match r.control with
      | .doneP =>
        .out { state := r.state, outcome := .done, fetchCalls := k + 1,
               persisted := acc ++ r.persisted, logs := logs ++ r.logs }
      | .stoppedP =>
        .out { state := r.state, outcome := .stopped, fetchCalls := k + 1,
               persisted := acc ++ r.persisted, logs := logs ++ r.logs }
      | .running =>
        fetch_all_pagesGo fetchO inputO fuel r.state (k + 1) j2
          (acc ++ r.persisted) (logs ++ r.logs)

/-- `fetch_all_pages(query, session_id, start_datetime, start_page, delay)`
(src/vercel_scraper.py:187-276): initialize the locals
(`current_page = start_page`, `total_pages = None`, total 0), log
SESSION_START, and run the loop. -/
def fetch_all_pages (fetchO : Nat → Option PageBody × Option ErrType)
    (inputO : Nat → String) (session_id : String) (start_page : Nat)
    (fuel : Nat) : RunRes :=
  fetch_all_pagesGo fetchO inputO fuel
    { current_page := start_page, total_pages := none,
      total_results_collected := 0, session_id := session_id }
    0 0 [] ["SESSION_START"]


/-- Claim C1: when a fetch fails with `Timeout` or `SessionInvalid` (`'403'`)
and the operator supplies a replacement credential (anything other than the
stop keyword), the driver resumes with the same page cursor, the same
total-pages bound and the same accumulated total; only the credential is
replaced. -/
theorem c1_credential_renewal_frame (s : DState) (err : ErrType) (input : String)
    (herr : err = ErrType.timeout ∨ err = ErrType.e403)
    (hq : pyLower (pyStrip input) ≠ "quit") :
    driverIter s (none, some err) input =
      some { state := { s with session_id := pyStrip input }, control := Control.running,
             persisted := [], logs := ["NEW_SESSION"], sleptDelay := false,
             prompted := true } := by
  rcases herr with h | h <;> subst h <;> simp [driverIter, hq]

/-- Witness for C1 at a concrete state and replacement credential. -/
theorem c1_credential_renewal_frame_witness :
    pyLower (pyStrip "newsid") ≠ "quit" ∧
    driverIter ⟨7, some 9, 42, "old"⟩ (none, some ErrType.e403) "newsid" =
      some { state := ⟨7, some 9, 42, "newsid"⟩, control := Control.running,
             persisted := [], logs := ["NEW_SESSION"], sleptDelay := false,
             prompted := true } :=
  ⟨by decide,
   c1_credential_renewal_frame ⟨7, some 9, 42, "old"⟩ ErrType.e403 "newsid"
     (Or.inr rfl) (by decide)⟩

/-- Claim C2: the total page count is captured from the first successful page
response only and is never overwritten by a later page's `totalPages`. -/
theorem c2_total_pages_first_success_wins :
    (∀ (s : DState) (body : PageBody) (et : Option ErrType) (input : String)
        (r : IterResult),
        s.total_pages = none →
        driverIter s (some body, et) input = some r →
        r.state.total_pages = some (body.totalPages.getD 1)) ∧
    (∀ (s : DState) (N : Nat) (body : PageBody) (et : Option ErrType) (input : String)
        (r : IterResult),
        s.total_pages = some N →
        driverIter s (some body, et) input = some r →
        r.state.total_pages = some N) := by
  constructor
  · intro s body et input r hs hit
    simp only [driverIter, hs] at hit
    cases hev : extractList body.results with
    | none => rw [hev] at hit; simp at hit
    | some filtered =>
      rw [hev] at hit
      simp only [] at hit
      split at hit <;> (cases hit; rfl)
  · intro s N body et input r hs hit
    simp only [driverIter, hs] at hit
    cases hev : extractList body.results with
    | none => rw [hev] at hit; simp at hit
    | some filtered =>
      rw [hev] at hit
      simp only [] at hit
      split at hit <;> (cases hit; rfl)

/-- Witness for C2: first success captures `totalPages = 5`; a later page
reporting `totalPages = 9` leaves the bound at 5. -/
theorem c2_total_pages_first_success_wins_witness :
    driverIter ⟨1, none, 0, "s"⟩ (some ⟨[], some 5, some 5, none⟩, none) "" =
      some { state := ⟨2, some 5, 0, "s"⟩, control := Control.running, persisted := [],
             logs := [], sleptDelay := true, prompted := false } ∧
    ({ state := ⟨2, some 5, 0, "s"⟩, control := Control.running, persisted := [],
       logs := [], sleptDelay := true, prompted := false } : IterResult).state.total_pages
      = some ((some 5 : Option Nat).getD 1) ∧
    driverIter ⟨2, some 5, 3, "s"⟩ (some ⟨[], some 9, some 9, none⟩, none) "" =
      some { state := ⟨3, some 5, 3, "s"⟩, control := Control.running, persisted := [],
             logs := [], sleptDelay := true, prompted := false } ∧
    ({ state := ⟨3, some 5, 3, "s"⟩, control := Control.running, persisted := [],
       logs := [], sleptDelay := true, prompted := false } : IterResult).state.total_pages
      = some 5 :=
  ⟨rfl,
   c2_total_pages_first_success_wins.1 ⟨1, none, 0, "s"⟩ ⟨[], some 5, some 5, none⟩
     none "" _ rfl rfl,
   rfl,
   c2_total_pages_first_success_wins.2 ⟨2, some 5, 3, "s"⟩ 5 ⟨[], some 9, some 9, none⟩
     none "" _ rfl rfl⟩

/-- Claim C5: a fetch ending with `SessionInvalid` or `Timeout` prompts the
operator (AWAITING_CREDENTIAL), while a fetch ending with `Transient`
(`'other'`) after retry exhaustion logs a STOPPED reason and stops without
prompting. -/
theorem c5_failure_routing :
    (∀ (s : DState) (err : ErrType) (input : String),
        err = ErrType.timeout ∨ err = ErrType.e403 →
        ∃ r : IterResult, driverIter s (none, some err) input = some r ∧
          r.prompted = true) ∧
    (∀ (s : DState) (input : String),
        ∃ r : IterResult, driverIter s (none, some ErrType.other) input = some r ∧
          r.prompted = false ∧ r.control = Control.stoppedP ∧ r.logs = ["STOPPED"]) := by
  constructor
  · intro s err input herr
    rcases herr with h | h <;> subst h <;> simp only [driverIter] <;>
      by_cases hq : pyLower (pyStrip input) = "quit" <;> simp [hq]
  · intro s input
    simp [driverIter]

/-- Witness for C5 at concrete failure kinds. -/
theorem c5_failure_routing_witness :
    (∃ r : IterResult, driverIter ⟨1, none, 0, "s"⟩ (none, some ErrType.timeout) "x" =
        some r ∧ r.prompted = true) ∧
    (∃ r : IterResult, driverIter ⟨1, none, 0, "s"⟩ (none, some ErrType.other) "x" =
        some r ∧ r.prompted = false ∧ r.control = Control.stoppedP ∧
        r.logs = ["STOPPED"]) :=
  ⟨c5_failure_routing.1 ⟨1, none, 0, "s"⟩ ErrType.timeout "x" (Or.inl rfl),
   c5_failure_routing.2 ⟨1, none, 0, "s"⟩ "x"⟩

/-- Claim C3: a fetcher whose every HTTP attempt times out returns absent
with `Timeout` after exactly 3 attempts (retry budget 2), sleeps 2 time-units
between consecutive attempts, and emits exactly one log event per attempt. -/
theorem c3_timeout_retry_exhaustion (q : String) (p : Nat) (oracle : Nat → HttpOutcome)
    (h : ∀ k, k < 3 → oracle k = HttpOutcome.timeoutExc) :
    fetch_page q p oracle 2 =
      { data := none, error := some ErrType.timeout, log := ["RETRY", "RETRY", "ERROR"],
        sleeps := [2, 2], attempts := 3 } := by
  have h0 := h 0 (by omega)
  have h1 := h 1 (by omega)
  have h2 := h 2 (by omega)
  simp [fetch_page, fetch_pageGo, h0, h1, h2]

/-- Witness for C3: the constantly-timing-out oracle. -/
theorem c3_timeout_retry_exhaustion_witness :
    fetch_page "acme" 1 (fun _ => HttpOutcome.timeoutExc) 2 =
      { data := none, error := some ErrType.timeout, log := ["RETRY", "RETRY", "ERROR"],
        sleeps := [2, 2], attempts := 3 } :=
  c3_timeout_retry_exhaustion "acme" 1 (fun _ => HttpOutcome.timeoutExc)
    (fun _ _ => rfl)

/-- Claim C4: a 403 response is classified `SessionInvalid` (`'403'`)
immediately, with no retry and a single log event; likewise a 2xx response
whose error text mentions "recaptcha" or "session" (case-insensitively). -/
theorem c4_session_invalid_no_retry :
    (∀ (q : String) (p : Nat) (oracle : Nat → HttpOutcome) (reason : String)
        (body : PageBody),
        oracle 0 = HttpOutcome.response 403 reason body →
        fetch_page q p oracle 2 =
          { data := none, error := some ErrType.e403, log := ["ERROR"], sleeps := [],
            attempts := 1 }) ∧
    (∀ (q : String) (p : Nat) (oracle : Nat → HttpOutcome) (status : Nat)
        (reason : String) (body : PageBody) (emsg : String),
        oracle 0 = HttpOutcome.response status reason body →
        200 ≤ status → status < 300 →
        body.error = some emsg →
        (strContainsSub (pyLower emsg) "recaptcha" = true ∨
         strContainsSub (pyLower emsg) "session" = true) →
        fetch_page q p oracle 2 =
          { data := none, error := some ErrType.e403, log := ["ERROR"], sleeps := [],
            attempts := 1 }) := by
  constructor
  · intro q p oracle reason body h0
    simp [fetch_page, fetch_pageGo, h0]
  · intro q p oracle status reason body emsg h0 h200 h300 herr hmatch
    have hne : ¬ (status = 403) := by omega
    have h400 : ¬ (400 ≤ status) := by omega
    rcases hmatch with hm | hm <;>
      simp [fetch_page, fetch_pageGo, h0, hne, h400, herr, hm]

/-- Witness for C4: a direct 403 and a 2xx body carrying a session error. -/
theorem c4_session_invalid_no_retry_witness :
    fetch_page "acme" 1 (fun _ => HttpOutcome.response 403 "Forbidden" ⟨[], none, none, none⟩) 2 =
      { data := none, error := some ErrType.e403, log := ["ERROR"], sleeps := [],
        attempts := 1 } ∧
    fetch_page "acme" 2
        (fun _ => HttpOutcome.response 200 "OK" ⟨[], none, none, some "Session expired"⟩) 2 =
      { data := none, error := some ErrType.e403, log := ["ERROR"], sleeps := [],
        attempts := 1 } :=
  ⟨c4_session_invalid_no_retry.1 "acme" 1 _ "Forbidden" ⟨[], none, none, none⟩ rfl,
   c4_session_invalid_no_retry.2 "acme" 2 _ 200 "OK" ⟨[], none, none, some "Session expired"⟩
     "Session expired" rfl (by omega) (by omega) rfl (Or.inr (by decide))⟩

/-- Claim C10: a 2xx response whose error text mentions neither "recaptcha"
nor "session" is a success: the parsed body is returned with no failure kind
and a single SUCCESS event, and the driver persists whatever the results
array extracts to (possibly empty). -/
theorem c10_benign_error_success :
    (∀ (q : String) (p : Nat) (oracle : Nat → HttpOutcome) (status : Nat)
        (reason : String) (body : PageBody) (emsg : String),
        oracle 0 = HttpOutcome.response status reason body →
        200 ≤ status → status < 300 →
        body.error = some emsg →
        strContainsSub (pyLower emsg) "recaptcha" = false →
        strContainsSub (pyLower emsg) "session" = false →
        fetch_page q p oracle 2 =
          { data := some body, error := none, log := ["SUCCESS"], sleeps := [],
            attempts := 1 }) ∧
    (∀ (s : DState) (body : PageBody) (input : String) (xs : List Extracted),
        extractList body.results = some xs →
        ∃ r : IterResult, driverIter s (some body, none) input = some r ∧
          r.persisted = xs) := by
  constructor
  · intro q p oracle status reason body emsg h0 h200 h300 herr hrc hse
    have hne : ¬ (status = 403) := by omega
    have h400 : ¬ (400 ≤ status) := by omega
    simp [fetch_page, fetch_pageGo, h0, hne, h400, herr, hrc, hse]
  · intro s body input xs hext
    simp only [driverIter, hext]
    by_cases hle : (match s.total_pages with
        | none => body.totalPages.getD 1
        | some n => n) ≤ s.current_page <;> simp [hle]

/-- Witness for C10: a 2xx body with a benign error text, and the driver
persisting its (empty) results batch. -/
theorem c10_benign_error_success_witness :
    fetch_page "acme" 1
        (fun _ => HttpOutcome.response 200 "OK" ⟨[], none, none, some "no rows"⟩) 2 =
      { data := some ⟨[], none, none, some "no rows"⟩, error := none, log := ["SUCCESS"],
        sleeps := [], attempts := 1 } ∧
    (∃ r : IterResult,
        driverIter ⟨1, none, 0, "s"⟩ (some ⟨[], none, none, some "no rows"⟩, none) "" =
          some r ∧ r.persisted = []) :=
  ⟨c10_benign_error_success.1 "acme" 1 _ 200 "OK" ⟨[], none, none, some "no rows"⟩
     "no rows" rfl (by omega) (by omega) rfl (by decide) (by decide),
   c10_benign_error_success.2 ⟨1, none, 0, "s"⟩ ⟨[], none, none, some "no rows"⟩ "" [] rfl⟩

/-- Counterexample to claim C6 as stated: with start page 2 and a first
successful response lacking `totalPages` (captured bound 1), the driver
terminates with DONE although the cursor (2) does not equal the total page
count (1): termination uses `cursor >= total`, not equality. -/
theorem c6_done_cursor_above_total_counterexample :
    driverIter ⟨2, none, 0, "sid"⟩ (some ⟨[], none, none, none⟩, none) "x" =
      some { state := ⟨2, some 1, 0, "sid"⟩, control := Control.doneP, persisted := [],
             logs := ["COMPLETED"], sleptDelay := false, prompted := false } ∧
    (2 : Nat) ≠ 1 :=
  ⟨rfl, by omega⟩

/-- Claim C6 (amended): after a successful page fetch the driver terminates
with DONE exactly when the cursor is greater than or equal to the total page
count (equality is the only reachable case in a run started at page ≤ total);
otherwise it increments the cursor by 1, applies the inter-page delay, and
returns to FETCHING. -/
theorem c6_advancing_ge_total (s : DState) (body : PageBody) (et : Option ErrType)
    (input : String) (tp : Nat) (filtered : List Extracted)
    (htp : tp = (match s.total_pages with
      | none => body.totalPages.getD 1
      | some n => n))
    (hext : extractList body.results = some filtered) :
    (tp ≤ s.current_page →
       driverIter s (some body, et) input =
         some { state := { s with
                           total_pages := some tp,
                           total_results_collected :=
                             s.total_results_collected + filtered.length },
                control := Control.doneP, persisted := filtered,
                logs := ["COMPLETED"], sleptDelay := false, prompted := false }) ∧
    (s.current_page < tp →
       driverIter s (some body, et) input =
         some { state := { s with
                           current_page := s.current_page + 1,
                           total_pages := some tp,
                           total_results_collected :=
                             s.total_results_collected + filtered.length },
                control := Control.running, persisted := filtered, logs := [],
                sleptDelay := true, prompted := false }) := by
  subst htp
  constructor
  · intro hle
    simp only [driverIter, hext]
    simp [hle]
  · intro hlt
    have hnle : ¬ ((match s.total_pages with
        | none => body.totalPages.getD 1
        | some n => n) ≤ s.current_page) := by omega
    have hdel : s.current_page + 1 ≤ (match s.total_pages with
        | none => body.totalPages.getD 1
        | some n => n) := by omega
    simp only [driverIter, hext]
    simp [hnle, hdel]

/-- Witness for C6 (amended): a completing iteration (cursor 2 ≥ captured
total 1) and an advancing iteration (cursor 1 < total 4). -/
theorem c6_advancing_ge_total_witness :
    (1 : Nat) ≤ 2 ∧
    driverIter ⟨2, none, 0, "s"⟩ (some ⟨[], none, none, none⟩, none) "" =
      some { state := ⟨2, some 1, 0, "s"⟩, control := Control.doneP, persisted := [],
             logs := ["COMPLETED"], sleptDelay := false, prompted := false } ∧
    (1 : Nat) < 4 ∧
    driverIter ⟨1, none, 0, "s"⟩ (some ⟨[], none, some 4, none⟩, none) "" =
      some { state := ⟨2, some 4, 0, "s"⟩, control := Control.running, persisted := [],
             logs := [], sleptDelay := true, prompted := false } :=
  ⟨by omega,
   (c6_advancing_ge_total ⟨2, none, 0, "s"⟩ ⟨[], none, none, none⟩ none "" 1 []
     rfl rfl).1 (by decide),
   by omega,
   (c6_advancing_ge_total ⟨1, none, 0, "s"⟩ ⟨[], none, some 4, none⟩ none "" 4 []
     rfl rfl).2 (by decide)⟩

/-- Counterexample to claim C7 as stated: the extractor is not total (a
record whose `agent` value is not a dict makes it raise), and a non-string
value under a key is copied through instead of being replaced by the empty
string. -/
theorem c7_extractor_not_total_counterexample :
    extract_needed_fields (JsonVal.obj [("agent", JsonVal.num 0)]) = none ∧
    extract_needed_fields (JsonVal.obj [("businessName", JsonVal.num 42)]) =
      some { business_name := JsonVal.num 42, registration_id := JsonVal.str "",
             status := JsonVal.str "", filing_date := JsonVal.str "",
             agent_name := JsonVal.str "", agent_address := JsonVal.str "",
             agent_email := JsonVal.str "" } ∧
    JsonVal.num 42 ≠ JsonVal.str "" :=
  ⟨rfl, rfl, fun h => JsonVal.noConfusion h⟩

/-- Claim C7 (amended): on any record that is a dict whose `agent` entry
(defaulting to the empty dict) is itself a dict, extraction succeeds and
every target field is the raw value at the corresponding source key — of
whatever type — with the empty string substituted only for a missing key or
a missing agent sub-object; a record or agent value that is not a dict makes
the extractor raise. -/
theorem c7_extractor_field_projection (fs ags : List (String × JsonVal))
    (hagent : dictGet fs "agent" (JsonVal.obj []) = JsonVal.obj ags) :
    extract_needed_fields (JsonVal.obj fs) =
      some { business_name := dictGet fs "businessName" (JsonVal.str ""),
             registration_id := dictGet fs "registrationId" (JsonVal.str ""),
             status := dictGet fs "status" (JsonVal.str ""),
             filing_date := dictGet fs "filingDate" (JsonVal.str ""),
             agent_name := dictGet ags "name" (JsonVal.str ""),
             agent_address := dictGet ags "address" (JsonVal.str ""),
             agent_email := dictGet ags "email" (JsonVal.str "") } := by
  simp [extract_needed_fields, jsonGet, hagent]

/-- Witness for C7 (amended) on a record with a present name, a present
agent name, and every other key missing. -/
theorem c7_extractor_field_projection_witness :
    dictGet [("businessName", JsonVal.str "Acme"),
             ("agent", JsonVal.obj [("name", JsonVal.str "J. Roe")])]
        "agent" (JsonVal.obj []) = JsonVal.obj [("name", JsonVal.str "J. Roe")] ∧
    extract_needed_fields (JsonVal.obj
        [("businessName", JsonVal.str "Acme"),
         ("agent", JsonVal.obj [("name", JsonVal.str "J. Roe")])]) =
      some { business_name := JsonVal.str "Acme", registration_id := JsonVal.str "",
             status := JsonVal.str "", filing_date := JsonVal.str "",
             agent_name := JsonVal.str "J. Roe", agent_address := JsonVal.str "",
             agent_email := JsonVal.str "" } :=
  ⟨rfl,
   c7_extractor_field_projection
     [("businessName", JsonVal.str "Acme"),
      ("agent", JsonVal.obj [("name", JsonVal.str "J. Roe")])]
     [("name", JsonVal.str "J. Roe")] rfl⟩

/-- Counterexample to claim C8 as stated: the renewal gate accepts the empty
string as a replacement credential — the run resumes with `session_id = ""`
instead of rejecting it. -/
theorem c8_empty_credential_accepted_counterexample :
    driverIter ⟨3, some 7, 5, "old"⟩ (none, some ErrType.e403) "" =
      some { state := ⟨3, some 7, 5, ""⟩, control := Control.running, persisted := [],
             logs := ["NEW_SESSION"], sleptDelay := false, prompted := true } :=
  rfl

/-- Claim C8 (amended): the gate blocks until it receives operator input;
input whose stripped form lowercases to "quit" is the stop signal (the run
terminates as STOPPED), and any other string — the empty string included —
is installed as the replacement credential, after which fetching resumes. -/
theorem c8_gate_stop_or_any_replacement (s : DState) (err : ErrType) (input : String)
    (herr : err = ErrType.timeout ∨ err = ErrType.e403) :
    (pyLower (pyStrip input) = "quit" →
       driverIter s (none, some err) input =
         some { state := s, control := Control.stoppedP, persisted := [],
                logs := ["STOPPED"], sleptDelay := false, prompted := true }) ∧
    (pyLower (pyStrip input) ≠ "quit" →
       driverIter s (none, some err) input =
         some { state := { s with session_id := pyStrip input },
                control := Control.running, persisted := [], logs := ["NEW_SESSION"],
                sleptDelay := false, prompted := true }) := by
  rcases herr with h | h <;> subst h <;>
    exact ⟨fun hq => by simp [driverIter, hq], fun hq => by simp [driverIter, hq]⟩

/-- Witness for C8 (amended): a stop keyword with surrounding whitespace and
mixed case, and the empty string as an accepted replacement. -/
theorem c8_gate_stop_or_any_replacement_witness :
    pyLower (pyStrip "  Quit ") = "quit" ∧
    driverIter ⟨4, some 6, 9, "old"⟩ (none, some ErrType.timeout) "  Quit " =
      some { state := ⟨4, some 6, 9, "old"⟩, control := Control.stoppedP, persisted := [],
             logs := ["STOPPED"], sleptDelay := false, prompted := true } ∧
    pyLower (pyStrip "") ≠ "quit" ∧
    driverIter ⟨4, some 6, 9, "old"⟩ (none, some ErrType.timeout) "" =
      some { state := ⟨4, some 6, 9, ""⟩, control := Control.running, persisted := [],
             logs := ["NEW_SESSION"], sleptDelay := false, prompted := true } :=
  ⟨by decide,
   (c8_gate_stop_or_any_replacement ⟨4, some 6, 9, "old"⟩ ErrType.timeout "  Quit "
     (Or.inl rfl)).1 (by decide),
   by decide,
   (c8_gate_stop_or_any_replacement ⟨4, some 6, 9, "old"⟩ ErrType.timeout ""
     (Or.inl rfl)).2 (by decide)⟩

/-- Claim C9: when the first successful page response carries no `totalPages`
key, the driver captures a total of 1, and for any start page ≥ 1 the run
ends DONE right after persisting that single page: exactly one fetch call is
made. -/
theorem c9_missing_total_pages_single_page
    (fetchO : Nat → Option PageBody × Option ErrType) (inputO : Nat → String)
    (sid : String) (p : Nat) (body : PageBody) (xs : List Extracted) (fuel : Nat)
    (hp : 1 ≤ p)
    (h0 : fetchO 0 = (some body, none))
    (htp : body.totalPages = none)
    (hext : extractList body.results = some xs) :
    fetch_all_pages fetchO inputO sid p (fuel + 1) =
      RunRes.out { state := { current_page := p,
                              total_pages := some 1,
                              total_results_collected := xs.length,
                              session_id := sid },
                   outcome := Outcome.done, fetchCalls := 1, persisted := xs,
                   logs := ["SESSION_START", "COMPLETED"] } := by
  simp [fetch_all_pages, fetch_all_pagesGo, h0, driverIter, hext, htp, hp]

/-- Witness for C9: start page 4, one result record, no `totalPages` key. -/
theorem c9_missing_total_pages_single_page_witness :
    (1 : Nat) ≤ 4 ∧
    fetch_all_pages (fun _ => (some ⟨[JsonVal.obj []], some 12, none, none⟩, none))
        (fun _ => "") "s" 4 10 =
      RunRes.out { state := { current_page := 4,
                              total_pages := some 1,
                              total_results_collected := 1,
                              session_id := "s" },
                   outcome := Outcome.done, fetchCalls := 1,
                   persisted := [{ business_name := JsonVal.str "",
                                   registration_id := JsonVal.str "",
                                   status := JsonVal.str "",
                                   filing_date := JsonVal.str "",
                                   agent_name := JsonVal.str "",
                                   agent_address := JsonVal.str "",
                                   agent_email := JsonVal.str "" }],
                   logs := ["SESSION_START", "COMPLETED"] } :=
  ⟨by omega,
   c9_missing_total_pages_single_page
     (fun _ => (some ⟨[JsonVal.obj []], some 12, none, none⟩, none)) (fun _ => "")
     "s" 4 ⟨[JsonVal.obj []], some 12, none, none⟩
     [{ business_name := JsonVal.str "", registration_id := JsonVal.str "",
        status := JsonVal.str "", filing_date := JsonVal.str "",
        agent_name := JsonVal.str "", agent_address := JsonVal.str "",
        agent_email := JsonVal.str "" }]
     9 (by omega) rfl rfl rfl⟩

end VercelScraper
